import Mathlib

/-!
Verification of the multi-agent compliance-analysis pipeline of
`multi_agent_system.py` (financial-regulation compliance review system).

The Python module is shallowly embedded:

* Python / JSON values are modelled by the inductive type `PyVal`; Python
  dicts become association lists with unique keys (first-match lookup,
  replace-in-place update).
* Python `int` / `float` scores are modelled as exact rationals `ℚ`.
* The language-model collaborator and the web-search collaborator are
  external black boxes: each stage receives the outcome of its collaborator
  call (`CallResult` / `Except`) as an oracle input carried by `Env`.
  A `CallResult.reply` carries both the raw reply text and the result of
  `json.loads` on that text, since the parse outcome is a pure function of
  the text that we do not re-implement.
* Python `str.replace` is modelled over `List Char` by `replaceTok`
  (split on the pattern at non-overlapping leftmost occurrences, then
  interleave the replacement — the documented behaviour of `str.replace`).
-/

namespace MultiAgent

/-- Model of a Python/JSON value as passed between the pipeline stages. -/
inductive PyVal : Type where
  | num : ℚ → PyVal
  | str : String → PyVal
  | bool : Bool → PyVal
  | none : PyVal
  | list : List PyVal → PyVal
  | dict : List (String × PyVal) → PyVal

/-- First-match lookup in a Python dict modelled as an association list
(keys of a Python dict are unique, so the first match is the only match). -/
def dictFind? : List (String × PyVal) → String → Option PyVal
  | [], _ => Option.none
  | (k', v) :: rest, k => if k' = k then some v else dictFind? rest k

/-- Python `d[k] = v`: replace the value of an existing key in place
(keeping its position), otherwise append the new key at the end. -/
def dictSet : List (String × PyVal) → String → PyVal → List (String × PyVal)
  | [], k, v => [(k, v)]
  | (k', v') :: rest, k, v =>
    if k' = k then (k, v) :: rest else (k', v') :: dictSet rest k v

/-- Python `d.get(k, dflt)`. -/
def pyGet (kvs : List (String × PyVal)) (k : String) (dflt : PyVal) : PyVal :=
  (dictFind? kvs k).getD dflt

/-- `_get_grade` (multi_agent_system.py, lines 472-483): score to letter
grade, left-closed thresholds 90/80/70/60. -/
def getGrade (score : ℚ) : String :=
  if score ≥ 90 then "우수"
  else if score ≥ 80 then "양호"
  else if score ≥ 70 then "보통"
  else if score ≥ 60 then "미흡"
  else "부족"

/-- Risk-to-compliance conversion of line 445:
`compliance_score = max(10, 110 - (risk_score * 10))`. -/
def complianceValue (risk_score : ℚ) : ℚ :=
  max 10 (110 - risk_score * 10)

/-- Numeric view of a Python value as used by Python arithmetic:
ints/floats are numbers and `True`/`False` act as `1`/`0`; every other
value makes `110 - value * 10` raise `TypeError`.  (For a string `s`,
`s * 10` is string repetition and the subtraction then raises.) -/
def scoreAsNum : PyVal → Option ℚ
  | .num q => some q
  | .bool b => some (if b then 1 else 0)
  | _ => Option.none

/-- The per-category compliance record built at lines 446-450. -/
def catEntry (fields : List (String × PyVal)) (r : ℚ) : PyVal :=
  .dict [("점수", .num (complianceValue r)),
         ("등급", .str (getGrade (complianceValue r))),
         ("사유", pyGet fields "사유" (.str ""))]

/-- Python `round` to the nearest integer, ties to the even integer
(banker's rounding), on an exact rational. -/
def roundHalfEven (x : ℚ) : ℤ :=
  let f : ℤ := ⌊x⌋
  let d : ℚ := x - f
  if d < 1/2 then f
  else if 1/2 < d then f + 1
  else if f % 2 = 0 then f else f + 1

/-- Python `round(x, 1)` on an exact rational. -/
def roundTo1 (x : ℚ) : ℚ :=
  (roundHalfEven (10 * x) : ℚ) / 10

/-- Decimal rendering of a score: one-decimal values print as Python `str`
prints the one-decimal floats produced by the scoring stage; a
whole-number rational prints without a fractional part ("60"), whereas
Python prints a whole FLOAT as "60.0" — `PyVal.num` does not carry the
int/float distinction, and no verified statement depends on this
rendering (other rationals and negative scores cannot reach `str` in this
program). -/
def ratStr (q : ℚ) : String :=
  if q.den = 1 then toString q.num
  else toString ⌊q⌋ ++ "." ++ toString (⌊q * 10⌋ - 10 * ⌊q⌋)

/-- Python `str` on the values that reach string formatting in the report
stage (only numbers and strings can actually occur there). -/
def pyStr : PyVal → String
  | .num q => ratStr q
  | .str s => s
  | .bool b => if b then "True" else "False"
  | .none => "None"
  | .list _ => "<list>"
  | .dict _ => "<dict>"

/-- The `전체점수` (overall score) record of lines 456-461: score rounded to
one decimal, grade of the unrounded mean, percentage from the mean rounded
to an integer. -/
def overallEntry (overall : ℚ) : PyVal :=
  .dict [("점수", .num (roundTo1 overall)),
         ("등급", .str (getGrade overall)),
         ("백분율", .str (toString (roundHalfEven overall) ++ "%"))]

/-- The category loop of `_calculate_compliance_score` (lines 441-452),
with the accumulated scores dict, running total and count.  A category is
processed when its name is not `전체위험도`, its value is a dict and that
dict has a `점수` key; a non-numeric `점수` value raises (`Except.error`),
which discards everything accumulated so far. -/
def complianceLoop (acc : List (String × PyVal)) (tot : ℚ) (cnt : ℕ) :
    List (String × PyVal) → Except String (List (String × PyVal) × ℚ × ℕ)
  | [] => .ok (acc, tot, cnt)
  | (c, d) :: rest =>
    match d with
    | .dict fields =>
      if c = "전체위험도" then complianceLoop acc tot cnt rest
      else
        match dictFind? fields "점수" with
        | some v =>
          match scoreAsNum v with
          | some r =>
            complianceLoop (acc ++ [(c, catEntry fields r)])
              (tot + complianceValue r) (cnt + 1) rest
          | Option.none => .error "unsupported operand type(s)"
        | Option.none => complianceLoop acc tot cnt rest
    | _ => complianceLoop acc tot cnt rest

/-- The fixed error record written by the stage's exception handler
(line 468): `{"오류": "계산 실패"}`. -/
def complianceErrorDict : List (String × PyVal) := [("오류", .str "계산 실패")]

/-! ### Python `str.replace`, modelled over `List Char`

`s.replace(a, b)` with a non-empty pattern `a` is `b.join(s.split(a))`:
split `s` at the non-overlapping leftmost occurrences of `a`, then join the
parts with `b`.  `splitOnTok` is that split; `replaceTok` is the join.
(The `a ≠ []` guard exists only to make the recursion terminate; every
pattern this program replaces is a fixed non-empty token.) -/

/-- Split at non-overlapping leftmost occurrences of the pattern `a`. -/
def splitOnTok (a : List Char) : List Char → List (List Char)
  | [] => [[]]
  | c :: rest =>
    if a ≠ [] ∧ a.isPrefixOf (c :: rest) then
      [] :: splitOnTok a ((c :: rest).drop a.length)
    else
      let ps := splitOnTok a rest
      (c :: ps.headD []) :: ps.tail
termination_by s => s.length
decreasing_by
  · simp only [List.length_drop, List.length_cons]
    have : 0 < a.length := List.length_pos.mpr (by tauto)
    omega
  · simp

/-- Python `s.replace(a, b)` (all occurrences, leftmost, non-overlapping). -/
def replaceTok (a b s : List Char) : List Char :=
  List.intercalate b (splitOnTok a s)

/-! ### Pipeline state, collaborator oracles, and the six stage functions -/

/-- `AnalysisState` (multi_agent_system.py, lines 17-27). -/
structure AnalysisState where
  input_content : String
  document_type : String
  primary_analysis : PyVal
  risk_assessment : PyVal
  web_search_results : PyVal
  compliance_score : PyVal
  final_report : String
  current_step : String
  error_message : String

/-- Outcome of one language-model call: the call raised an exception
carrying a message, or it returned reply text.  For stages that run
`json.loads` on the reply, the parse outcome (a pure function of the text,
not re-implemented here) is carried alongside: `Option.none` means the
reply was not valid JSON. -/
inductive CallResult where
  | thrown : String → CallResult
  | reply : String → Option PyVal → CallResult

/-- The collaborator environment of one pipeline run: the outcome of each
stage's language-model call, the web-search configuration and outcome
(`hasTavily` is Python's truthiness of `self.tavily_api_key`; search
results are (title, url, content) triples), and the wall-clock timestamp
string produced by `datetime.now().strftime(...)` in the report stage. -/
structure Env where
  classifyCall : CallResult
  primaryCall : CallResult
  riskCall : CallResult
  reportCall : CallResult
  hasTavily : Bool
  tavilyCall : Except String (List (String × String × String))
  now : String

/-- Python slicing `s[:n]` (by characters). -/
def pyTake (s : String) (n : ℕ) : String :=
  (s.toList.take n).asString

/-- Substring containment, Python's `sub in s`. -/
def strContainsB (s sub : String) : Bool :=
  decide (sub.toList <:+: s.toList)

/-- The `doc_types` mapping of lines 129-136. -/
def docTypesMap : List (String × String) :=
  [("1", "금융상품설명서"), ("2", "서비스약관"), ("3", "개인정보처리방침"),
   ("4", "보안정책"), ("5", "시스템구성도"), ("6", "기타")]

/-- `m.get(k, dflt)` on a string-to-string mapping. -/
def lookupD : List (String × String) → String → String → String
  | [], _, dflt => dflt
  | (k', v) :: rest, k, dflt => if k' = k then v else lookupD rest k dflt

/-- Python `str.strip()`: drop whitespace from both ends (over the char
list, so that it evaluates by kernel reduction; `Char.isWhitespace` covers
the whitespace this program can see). -/
def pyStrip (s : String) : String :=
  ((s.toList.dropWhile Char.isWhitespace).reverse.dropWhile
    Char.isWhitespace).reverse.asString

/-- One iteration of the reply-parsing loop of `_classify_document`
(lines 125-144), folding over the lines of the reply.  Python's
`line.split(":")[1]` cannot raise inside the marker branch because a
matching line contains a colon, so the inner `try` only guards the
`int(...)` conversion of the confidence. -/
def classifyFold (acc : String × ℤ) (line : String) : String × ℤ :=
  if strContainsB line "분류번호:" then
    match line.splitOn ":" with
    | _ :: second :: _ => (lookupD docTypesMap (pyStrip second) "기타", acc.2)
    | _ => acc
  else if strContainsB line "신뢰도:" then
    match line.splitOn ":" with
    | _ :: second :: _ =>
      match (((pyStrip second).splitOn "점").headD "").toInt? with
      | some n => (acc.1, n)
      | Option.none => acc
    | _ => acc
  else acc

/-- The reply parsing of `_classify_document`: strip the reply, split into
lines, scan for the category-number and confidence markers, starting from
the defaults `("기타", 5)`. -/
def parseClassify (content : String) : String × ℤ :=
  ((pyStrip content).splitOn "\n").foldl classifyFold ("기타", 5)

/-- Stage 1, `_classify_document` (lines 66-153). -/
def _classify_document (env : Env) (st : AnalysisState) : AnalysisState :=
  match env.classifyCall with
  | .thrown e =>
    { st with error_message := "문서 분류 오류: " ++ e, document_type := "기타" }
  | .reply content _ =>
    let p := parseClassify content
    { st with document_type := p.1,
              current_step := "문서 분류 완료 (신뢰도: " ++ toString p.2 ++ "/10)" }

/-- The degraded structure of lines 243-249, used when the primary-analysis
reply is not valid JSON. -/
def primaryFallback (content : String) : PyVal :=
  .dict [("주요내용", .str (pyTake content 500)),
         ("규제관련사항", .list [.str "분석 중 오류 발생"]),
         ("보안요소", .list [.str "분석 중 오류 발생"]),
         ("개인정보", .list [.str "분석 중 오류 발생"]),
         ("위험요소", .list [.str "분석 중 오류 발생"])]

/-- Stage 2, `_primary_analysis` (lines 155-258). -/
def _primary_analysis (env : Env) (st : AnalysisState) : AnalysisState :=
  match env.primaryCall with
  | .thrown e =>
    { st with error_message := "1차 분석 오류: " ++ e,
              primary_analysis := .dict [("오류", .str "분석 실패")] }
  | .reply content parsed =>
    { st with primary_analysis := parsed.getD (primaryFallback content),
              current_step := "1차 분석 완료" }

/-- The all-score-5 default of lines 367-373, used when the risk-assessment
reply is not valid JSON. -/
def riskFallback : PyVal :=
  .dict [("개인정보보호", .dict [("점수", .num 5), ("사유", .str "분석 중 오류")]),
         ("데이터보안", .dict [("점수", .num 5), ("사유", .str "분석 중 오류")]),
         ("접근제어", .dict [("점수", .num 5), ("사유", .str "분석 중 오류")]),
         ("규제준수", .dict [("점수", .num 5), ("사유", .str "분석 중 오류")]),
         ("전체위험도", .dict [("점수", .num 5), ("등급", .str "보통")])]

/-- Stage 3, `_assess_risk` (lines 260-382). -/
def _assess_risk (env : Env) (st : AnalysisState) : AnalysisState :=
  match env.riskCall with
  | .thrown e =>
    { st with error_message := "위험도 평가 오류: " ++ e,
              risk_assessment := .dict [("오류", .str "평가 실패")] }
  | .reply _ parsed =>
    { st with risk_assessment := parsed.getD riskFallback,
              current_step := "위험도 평가 완료" }

/-- The fixed stub record of lines 388-391, written when no web-search
credential is configured. -/
def webStub : PyVal :=
  .dict [("결과", .str "웹 검색 기능이 비활성화됨"),
         ("관련규제", .list [.str "Tavily API 키 필요"])]

/-- One search hit as recorded at lines 415-420 (title, url, content
truncated to 200 characters). -/
def webItem (t : String × String × String) : PyVal :=
  .dict [("제목", .str t.1), ("URL", .str t.2.1), ("내용", .str (pyTake t.2.2 200))]

/-- Stage 4, `_search_web_info` (lines 384-429). -/
def _search_web_info (env : Env) (st : AnalysisState) : AnalysisState :=
  if env.hasTavily then
    match env.tavilyCall with
    | .error e =>
      { st with error_message := "웹 검색 오류: " ++ e,
                web_search_results := .dict [("오류", .str "검색 실패")] }
    | .ok results =>
      let query := "금융 규제 " ++ st.document_type ++ " 가이드라인 2024 금융위원회 금융보안원"
      let wsr : PyVal :=
        .dict [("검색쿼리", .str query),
               ("결과수", .num (results.length : ℚ)),
               ("관련규제", .list ((results.take 3).map webItem))]
      { st with web_search_results := wsr, current_step := "웹 검색 완료" }
  else
    { st with web_search_results := webStub, current_step := "웹 검색 건너뜀" }

/-- Stage 5, `_calculate_compliance_score` (lines 431-470).  If
`risk_assessment` is not a dict, `.items()` raises and the handler fires;
if the loop raises on a non-numeric score, the handler fires; otherwise
the scores dict is written, with the `전체점수` entry added when at least
one category was counted. -/
def _calculate_compliance_score (st : AnalysisState) : AnalysisState :=
  match st.risk_assessment with
  | .dict riskKvs =>
    match complianceLoop [] 0 0 riskKvs with
    | .ok (scores, tot, cnt) =>
      let scores' :=
        if 0 < cnt then dictSet scores "전체점수" (overallEntry (tot / (cnt : ℚ)))
        else scores
      { st with compliance_score := .dict scores',
                current_step := "준수 점수 계산 완료" }
    | .error e =>
      { st with error_message := "점수 계산 오류: " ++ e,
                compliance_score := .dict complianceErrorDict }
  | _ =>
    { st with error_message := "점수 계산 오류: 'list' object has no attribute 'items'",
              compliance_score := .dict complianceErrorDict }

/-- The literal placeholder tokens substituted at lines 613-624. -/
def tokTime : List Char := "[현재 시간]".toList

/-- The compound score/grade token of line 622. -/
def tokScoreGrade : List Char := "[점수]/100점 ([등급])".toList

/-- The score token of line 623. -/
def tokScore : List Char := "[점수]".toList

/-- The grade token of line 624. -/
def tokGrade : List Char := "[등급]".toList

/-- The placeholder substitution of `_generate_final_report`
(lines 613-624): replace the current-time token, then — when an overall
score exists — the compound token, the score token and the grade token,
by plain text replacement. -/
def substPlaceholders (now scoreStr gradeStr : String) (hasOverall : Bool)
    (content : List Char) : List Char :=
  let r1 := replaceTok tokTime now.toList content
  if hasOverall then
    replaceTok tokGrade gradeStr.toList
      (replaceTok tokScore scoreStr.toList
        (replaceTok tokScoreGrade
          (scoreStr ++ "/100점 (" ++ gradeStr ++ ")").toList r1))
  else r1

/-- Stage 6, `_generate_final_report` (lines 485-633).  On success the
reply text gets the placeholder substitution (score and grade are taken
from the `전체점수` entry of `compliance_score` when present; they are
always a number and a string when that entry exists).  On an exception the
literal error report of line 631 is written. -/
def _generate_final_report (env : Env) (st : AnalysisState) : AnalysisState :=
  match env.reportCall with
  | .thrown e =>
    { st with error_message := "보고서 생성 오류: " ++ e,
              final_report :=
                "## ⚠️ 보고서 생성 오류\n\n보고서 생성 중 오류가 발생했습니다: "
                  ++ e ++ "\n\n기본 분석 결과를 확인해주세요." }
  | .reply content _ =>
    let overall :=
      match st.compliance_score with
      | .dict kvs =>
        match dictFind? kvs "전체점수" with
        | some (.dict fs) =>
          some (pyStr (pyGet fs "점수" (.str "미측정")),
                pyStr (pyGet fs "등급" (.str "미평가")))
        | _ => Option.none
      | _ => Option.none
    let report :=
      match overall with
      | some (scoreStr, gradeStr) =>
        substPlaceholders env.now scoreStr gradeStr true content.toList
      | Option.none =>
        substPlaceholders env.now "" "" false content.toList
    { st with final_report := report.asString,
              current_step := "전문 보고서 생성 완료" }

/-- The initial state built by `analyze_document` (lines 637-647). -/
def initialState (content : String) : AnalysisState :=
  { input_content := content, document_type := "",
    primary_analysis := .dict [], risk_assessment := .dict [],
    web_search_results := .dict [], compliance_score := .dict [],
    final_report := "", current_step := "시작", error_message := "" }

/-- `analyze_document` (lines 635-650): the driver runs the six stages in
the fixed linear order of the compiled workflow (lines 56-62) and returns
the final state.  It is a total function: no exception escapes. -/
def analyze_document (env : Env) (content : String) : AnalysisState :=
  _generate_final_report env
    (_calculate_compliance_score
      (_search_web_info env
        (_assess_risk env
          (_primary_analysis env
            (_classify_document env (initialState content))))))

/-! ### The router (`create_intelligent_router` / `route_question`,
lines 800-898) -/

/-- A word character for the purposes of the regex `\b[123]\b`
(`re` word characters: ASCII alphanumerics, underscore, and — for the
strings this router sees — Hangul syllables). -/
def isWordChar (c : Char) : Bool :=
  c.isAlphanum || c = '_' || (0xAC00 ≤ c.toNat && c.toNat ≤ 0xD7A3)

/-- Scan for isolated digit tokens `1`/`2`/`3` (a match of `\b[123]\b`):
the digit's neighbours, when they exist, are not word characters.
Matches are produced in order, as `re.findall` does. -/
def isolatedDigitsAux : Option Char → List Char → List Char
  | _, [] => []
  | prev, c :: rest =>
    let okL := match prev with | Option.none => true | some p => !(isWordChar p)
    let okR := match rest with | [] => true | d :: _ => !(isWordChar d)
    if (c = '1' || c = '2' || c = '3') && okL && okR then
      c :: isolatedDigitsAux (some c) rest
    else isolatedDigitsAux (some c) rest

/-- `re.findall(r'\b[123]\b', s)`, as the list of matched digits. -/
def isolatedDigits (s : List Char) : List Char :=
  isolatedDigitsAux Option.none s

/-- The category-3 keyword allow-list of line 880. -/
def kw3 : List String :=
  ["종합", "전문", "위험도", "보안", "컴플라이언스", "평가", "검토", "체크", "점수"]

/-- The category-2 keyword allow-list of line 882. -/
def kw2 : List String :=
  ["분석", "요약", "리뷰", "확인", "내용"]

/-- Python `str.lower` (ASCII case folding; the Korean keywords and any
Hangul input are untouched by it, as in Python). -/
def pyLower (s : String) : String :=
  (s.toList.map Char.toLower).asString

/-- `any(word in q for word in kws)`. -/
def containsAny (q : String) (kws : List String) : Bool :=
  kws.any fun w => strContainsB q w

/-- The keyword fallback of lines 878-885: category-3 keywords first, then
category-2, defaulting to category 1. -/
def fallbackClassification (question : String) : String :=
  let ql := pyLower question
  if containsAny ql kw3 then "3"
  else if containsAny ql kw2 then "2"
  else "1"

/-- The `route_map` of lines 887-891. -/
def routeMap : List (String × String) :=
  [("1", "qa_chatbot"), ("2", "document_analysis"), ("3", "multi_agent")]

/-- `route_question` (lines 804-896): on an exception from the
language-model call return `qa_chatbot`; otherwise strip the reply, take
the last isolated digit in {1,2,3}, and fall back to the keyword check on
the raw question when there is none. -/
def route_question (call : Except String String) (question : String) : String :=
  match call with
  | .error _ => "qa_chatbot"
  | .ok content =>
    let responseText := (pyStrip content)
    let classification :=
      match (isolatedDigits responseText.toList).getLast? with
      | some c => [c].asString
      | Option.none => fallbackClassification question
    lookupD routeMap classification "qa_chatbot"

/-! ### Helper lemmas about the dict operations and the compliance loop -/

theorem dictFind?_dictSet_self (l : List (String × PyVal)) (k : String) (v : PyVal) :
    dictFind? (dictSet l k v) k = some v := by
  induction l with
  | nil => simp [dictSet, dictFind?]
  | cons hd tl ih =>
    obtain ⟨k', v'⟩ := hd
    by_cases hk : k' = k
    · subst hk; simp [dictSet, dictFind?]
    · simp [dictSet, hk, dictFind?, ih]

theorem dictFind?_dictSet_ne (l : List (String × PyVal)) (k c : String) (v : PyVal)
    (h : c ≠ k) : dictFind? (dictSet l k v) c = dictFind? l c := by
  induction l with
  | nil => simp [dictSet, dictFind?, Ne.symm h]
  | cons hd tl ih =>
    obtain ⟨k', v'⟩ := hd
    by_cases hk : k' = k
    · subst hk; simp [dictSet, dictFind?, Ne.symm h]
    · simp [dictSet, hk, dictFind?, ih]

/-- The `점수` value stored in a compliance record (0 for shapes the scoring
stage never produces). -/
def entryScore (v : PyVal) : ℚ :=
  match v with
  | .dict fs =>
    match dictFind? fs "점수" with
    | some (.num q) => q
    | _ => 0
  | _ => 0

/-- Sum of the per-category compliance scores of a scores dict. -/
def entrySum (l : List (String × PyVal)) : ℚ :=
  (l.map fun p => entryScore p.2).sum

theorem entryScore_catEntry (fields : List (String × PyVal)) (r : ℚ) :
    entryScore (catEntry fields r) = complianceValue r := by
  simp [entryScore, catEntry, dictFind?]

/-- Unfolding step of the loop at a processed category with a numeric score. -/
theorem complianceLoop_cons_num {c : String} {fields rest : List (String × PyVal)}
    {v : PyVal} {r : ℚ} (acc : List (String × PyVal)) (tot : ℚ) (cnt : ℕ)
    (hc : ¬ c = "전체위험도") (hf : dictFind? fields "점수" = some v)
    (hn : scoreAsNum v = some r) :
    complianceLoop acc tot cnt ((c, .dict fields) :: rest) =
      complianceLoop (acc ++ [(c, catEntry fields r)])
        (tot + complianceValue r) (cnt + 1) rest := by
  simp [complianceLoop, hc, hf, hn]

/-- Loop invariant: a successful run extends the accumulator with the new
category records, counts exactly them, and totals exactly their scores. -/
theorem complianceLoop_spec (l : List (String × PyVal)) :
    ∀ acc tot cnt scores tot' cnt',
      complianceLoop acc tot cnt l = .ok (scores, tot', cnt') →
      ∃ news, scores = acc ++ news ∧ cnt' = cnt + news.length ∧
        tot' = tot + entrySum news := by
  induction l with
  | nil =>
    intro acc tot cnt scores tot' cnt' h
    simp only [complianceLoop, Except.ok.injEq, Prod.mk.injEq] at h
    exact ⟨[], by simp [h.1.symm, h.2.1.symm, h.2.2.symm, entrySum]⟩
  | cons hd tl ih =>
    intro acc tot cnt scores tot' cnt' h
    obtain ⟨c, d⟩ := hd
    cases d with
    | dict fields =>
      by_cases hc : c = "전체위험도"
      · simp only [complianceLoop, if_pos hc] at h
        exact ih _ _ _ _ _ _ h
      · cases hf : dictFind? fields "점수" with
        | none =>
          simp only [complianceLoop, if_neg hc, hf] at h
          exact ih _ _ _ _ _ _ h
        | some v =>
          cases hn : scoreAsNum v with
          | none =>
            simp only [complianceLoop, if_neg hc, hf, hn] at h
            exact Except.noConfusion h
          | some r =>
            rw [complianceLoop_cons_num acc tot cnt hc hf hn] at h
            obtain ⟨news, hs, hcnt, htot⟩ := ih _ _ _ _ _ _ h
            refine ⟨(c, catEntry fields r) :: news, ?_, ?_, ?_⟩
            · simp [hs]
            · simp [hcnt]; omega
            · simp [htot, entrySum, entryScore_catEntry]; ring
    | num q =>
      simp only [complianceLoop] at h; exact ih _ _ _ _ _ _ h
    | str s =>
      simp only [complianceLoop] at h; exact ih _ _ _ _ _ _ h
    | bool b =>
      simp only [complianceLoop] at h; exact ih _ _ _ _ _ _ h
    | none =>
      simp only [complianceLoop] at h; exact ih _ _ _ _ _ _ h
    | list xs =>
      simp only [complianceLoop] at h; exact ih _ _ _ _ _ _ h

/-! ### C3 -/

/-- C3: `_get_grade` maps a score to a letter grade by left-closed
thresholds — every score ≥ 90 is 우수 (Excellent), ≥ 80 is 양호 (Good),
≥ 70 is 보통 (Fair), ≥ 60 is 미흡 (Poor), and everything below 60 is
부족 (Inadequate); in particular 90 is 우수 (not 양호), 89.9 is 양호,
60 is 미흡 and 59.9 is 부족. -/
theorem c3_grade_thresholds :
    (∀ s : ℚ, 90 ≤ s → getGrade s = "우수") ∧
    (∀ s : ℚ, 80 ≤ s → s < 90 → getGrade s = "양호") ∧
    (∀ s : ℚ, 70 ≤ s → s < 80 → getGrade s = "보통") ∧
    (∀ s : ℚ, 60 ≤ s → s < 70 → getGrade s = "미흡") ∧
    (∀ s : ℚ, s < 60 → getGrade s = "부족") ∧
    getGrade 90 = "우수" ∧ getGrade (899/10) = "양호" ∧
    getGrade 60 = "미흡" ∧ getGrade (599/10) = "부족" := by
  refine ⟨?_, ?_, ?_, ?_, ?_, ?_, ?_, ?_, ?_⟩
  · intro s h; unfold getGrade; rw [if_pos (by exact h)]
  · intro s h h'; unfold getGrade
    rw [if_neg (by simpa using not_le.mpr h'), if_pos (by exact h)]
  · intro s h h'; unfold getGrade
    rw [if_neg (by simp only [ge_iff_le, not_le]; linarith),
        if_neg (by simpa using not_le.mpr h'), if_pos (by exact h)]
  · intro s h h'; unfold getGrade
    rw [if_neg (by simp only [ge_iff_le, not_le]; linarith),
        if_neg (by simp only [ge_iff_le, not_le]; linarith),
        if_neg (by simpa using not_le.mpr h'), if_pos (by exact h)]
  · intro s h; unfold getGrade
    rw [if_neg (by simp only [ge_iff_le, not_le]; linarith),
        if_neg (by simp only [ge_iff_le, not_le]; linarith),
        if_neg (by simp only [ge_iff_le, not_le]; linarith),
        if_neg (by simpa using not_le.mpr h)]
  · norm_num [getGrade]
  · norm_num [getGrade]
  · norm_num [getGrade]
  · norm_num [getGrade]

/-- Witness for C3 at concrete scores. -/
theorem c3_grade_thresholds_witness :
    getGrade 95 = "우수" ∧ getGrade 85 = "양호" ∧ getGrade 75 = "보통" ∧
    getGrade 65 = "미흡" ∧ getGrade 55 = "부족" :=
  ⟨c3_grade_thresholds.1 95 (by norm_num),
   c3_grade_thresholds.2.1 85 (by norm_num) (by norm_num),
   c3_grade_thresholds.2.2.1 75 (by norm_num) (by norm_num),
   c3_grade_thresholds.2.2.2.1 65 (by norm_num) (by norm_num),
   c3_grade_thresholds.2.2.2.2.1 55 (by norm_num)⟩

/-! ### C2 -/

/-- The per-category record the loop appends for every processed category
of the risk dict, position by position: exactly the categories other than
전체위험도 whose value is a dict carrying a numeric `점수`. -/
def processedCats (l : List (String × PyVal)) : List (String × PyVal) :=
  l.filterMap fun p =>
    match p.2 with
    | .dict fields =>
      if p.1 = "전체위험도" then Option.none
      else
        match dictFind? fields "점수" with
        | some v =>
          match scoreAsNum v with
          | some r => some (p.1, catEntry fields r)
          | Option.none => Option.none
        | Option.none => Option.none
    | _ => Option.none

/-- A successful loop run produces exactly the processed-category records,
appended to the accumulator, in risk-dict order. -/
theorem complianceLoop_ok_scores (l : List (String × PyVal)) :
    ∀ acc tot cnt scores tot' cnt',
      complianceLoop acc tot cnt l = .ok (scores, tot', cnt') →
      scores = acc ++ processedCats l := by
  induction l with
  | nil =>
    intro acc tot cnt scores tot' cnt' h
    simp only [complianceLoop, Except.ok.injEq, Prod.mk.injEq] at h
    simp [processedCats, h.1.symm]
  | cons hd tl ih =>
    intro acc tot cnt scores tot' cnt' h
    obtain ⟨c, d⟩ := hd
    cases d with
    | dict fields =>
      by_cases hc : c = "전체위험도"
      · simp only [complianceLoop, if_pos hc] at h
        rw [ih _ _ _ _ _ _ h]
        simp [processedCats, List.filterMap_cons, hc]
      · cases hf : dictFind? fields "점수" with
        | none =>
          simp only [complianceLoop, if_neg hc, hf] at h
          rw [ih _ _ _ _ _ _ h]
          simp [processedCats, List.filterMap_cons, hc, hf]
        | some v =>
          cases hn : scoreAsNum v with
          | none =>
            simp only [complianceLoop, if_neg hc, hf, hn] at h
            exact Except.noConfusion h
          | some r =>
            rw [complianceLoop_cons_num acc tot cnt hc hf hn] at h
            rw [ih _ _ _ _ _ _ h]
            simp [processedCats, List.filterMap_cons, hc, hf, hn]
    | num q =>
      simp only [complianceLoop] at h
      rw [ih _ _ _ _ _ _ h]; simp [processedCats, List.filterMap_cons]
    | str s =>
      simp only [complianceLoop] at h
      rw [ih _ _ _ _ _ _ h]; simp [processedCats, List.filterMap_cons]
    | bool b =>
      simp only [complianceLoop] at h
      rw [ih _ _ _ _ _ _ h]; simp [processedCats, List.filterMap_cons]
    | none =>
      simp only [complianceLoop] at h
      rw [ih _ _ _ _ _ _ h]; simp [processedCats, List.filterMap_cons]
    | list xs =>
      simp only [complianceLoop] at h
      rw [ih _ _ _ _ _ _ h]; simp [processedCats, List.filterMap_cons]

/-- Looking a usable category up in the processed records finds its
compliance entry, wherever the category sits in the risk dict (keys of a
Python dict are unique, hence the `Nodup` hypothesis). -/
theorem dictFind?_processedCats {l : List (String × PyVal)} {c : String}
    {fields : List (String × PyVal)} {v : PyVal} {r : ℚ}
    (hnd : (l.map Prod.fst).Nodup)
    (hmem : (c, PyVal.dict fields) ∈ l)
    (hc : ¬ c = "전체위험도")
    (hf : dictFind? fields "점수" = some v)
    (hn : scoreAsNum v = some r) :
    dictFind? (processedCats l) c = some (catEntry fields r) := by
  induction l with
  | nil => simp at hmem
  | cons hd tl ih =>
    obtain ⟨c', d'⟩ := hd
    rw [List.map_cons, List.nodup_cons] at hnd
    rcases List.mem_cons.mp hmem with heq | hmem'
    · obtain ⟨hc1, hd1⟩ := Prod.mk.injEq .. ▸ heq.symm
      subst hc1; subst hd1
      simp [processedCats, List.filterMap_cons, hc, hf, hn, dictFind?]
    · have hcmem : c ∈ tl.map Prod.fst :=
        List.mem_map_of_mem Prod.fst hmem'
      have hne : ¬ c' = c := fun h => hnd.1 (h ▸ hcmem)
      have htail := ih hnd.2 hmem'
      cases d' with
      | dict fields' =>
        by_cases hc2 : c' = "전체위험도"
        · simpa [processedCats, List.filterMap_cons, hc2] using htail
        · cases hf2 : dictFind? fields' "점수" with
          | none =>
            simpa [processedCats, List.filterMap_cons, hc2, hf2] using htail
          | some v2 =>
            cases hn2 : scoreAsNum v2 with
            | none =>
              simpa [processedCats, List.filterMap_cons, hc2, hf2, hn2] using htail
            | some r2 =>
              simpa [processedCats, List.filterMap_cons, hc2, hf2, hn2,
                     dictFind?, hne] using htail
      | num q => simpa [processedCats, List.filterMap_cons] using htail
      | str s => simpa [processedCats, List.filterMap_cons] using htail
      | bool b => simpa [processedCats, List.filterMap_cons] using htail
      | none => simpa [processedCats, List.filterMap_cons] using htail
      | list xs => simpa [processedCats, List.filterMap_cons] using htail

/-- C2: for every risk category other than 전체위험도 (OverallRisk) — at any
position of the risk dict — whose record carries a numeric score `r`, the
compliance-scoring stage assigns that category the compliance score
`max(10, 110 - 10*r)`; in particular `r = 1 ↦ 100`, `r = 5 ↦ 60`,
`r = 10 ↦ 10`; the mapping is monotonically decreasing in `r` and floored
at 10 (and on the 1–10 scale the floor is only attained at `r = 10`, where
`110 - 10*r = 10`).  The `Nodup` hypothesis reflects that keys of a Python
dict are unique; `c ≠ 전체점수` excludes the synthetic overall key, which
Python would overwrite. -/
theorem c2_compliance_mapping :
    (∀ (st : AnalysisState) (c : String)
       (riskKvs fields scores : List (String × PyVal))
       (v : PyVal) (r tot : ℚ) (cnt : ℕ),
       st.risk_assessment = .dict riskKvs →
       (riskKvs.map Prod.fst).Nodup →
       (c, PyVal.dict fields) ∈ riskKvs →
       c ≠ "전체위험도" → c ≠ "전체점수" →
       dictFind? fields "점수" = some v → scoreAsNum v = some r →
       complianceLoop [] 0 0 riskKvs = .ok (scores, tot, cnt) →
       ∃ kvs, (_calculate_compliance_score st).compliance_score = .dict kvs ∧
         dictFind? kvs c =
           some (.dict [("점수", .num (max 10 (110 - 10 * r))),
                        ("등급", .str (getGrade (max 10 (110 - 10 * r)))),
                        ("사유", pyGet fields "사유" (.str ""))])) ∧
    complianceValue 1 = 100 ∧ complianceValue 5 = 60 ∧ complianceValue 10 = 10 ∧
    (∀ r₁ r₂ : ℚ, r₁ ≤ r₂ → complianceValue r₂ ≤ complianceValue r₁) ∧
    (∀ r : ℚ, 10 ≤ complianceValue r) ∧
    (∀ r : ℚ, 1 ≤ r → r ≤ 10 → complianceValue r = 110 - 10 * r) := by
  refine ⟨?_, by norm_num [complianceValue], by norm_num [complianceValue],
          by norm_num [complianceValue], ?_, ?_, ?_⟩
  · intro st c riskKvs fields scores v r tot cnt hrisk hnd hmem hc hc' hf hn hloop
    have hscores : scores = processedCats riskKvs := by
      simpa using complianceLoop_ok_scores riskKvs _ _ _ _ _ _ hloop
    have hfind : dictFind? scores c = some (catEntry fields r) := by
      rw [hscores]; exact dictFind?_processedCats hnd hmem hc hf hn
    have hcntpos : 0 < cnt := by
      obtain ⟨news, hs, hcnt, -⟩ := complianceLoop_spec riskKvs _ _ _ _ _ _ hloop
      rcases hnews : news with _ | ⟨p, ps⟩
      · rw [hnews] at hs
        simp only [List.nil_append, List.append_nil] at hs
        rw [hs] at hfind
        simp [dictFind?] at hfind
      · rw [hnews] at hcnt; simp [hcnt]
    refine ⟨dictSet scores "전체점수" (overallEntry (tot / (cnt : ℚ))), ?_, ?_⟩
    · simp only [_calculate_compliance_score, hrisk, hloop, if_pos hcntpos]
    · rw [dictFind?_dictSet_ne _ _ _ _ hc', hfind]
      have : complianceValue r = max 10 (110 - 10 * r) := by
        simp [complianceValue, mul_comm]
      simp [catEntry, this]
  · intro r₁ r₂ h
    exact max_le_max le_rfl (by linarith)
  · intro r; exact le_max_left _ _
  · intro r h1 h10
    simp only [complianceValue]
    rw [max_eq_right (by linarith)]
    ring

/-- Witness for C2: in a two-category risk dict, the SECOND category
(개인정보보호, score 3) is assigned compliance 80 = max(10, 110 - 30) with
grade 양호, exercising the any-position quantification. -/
theorem c2_compliance_mapping_witness :
    (∃ kvs,
      (_calculate_compliance_score
        { initialState "doc" with
          risk_assessment := .dict [("데이터보안", .dict [("점수", .num 5)]),
                                    ("개인정보보호", .dict [("점수", .num 3)])] }).compliance_score
        = .dict kvs ∧
      dictFind? kvs "개인정보보호" =
        some (.dict [("점수", .num (max 10 (110 - 10 * 3))),
                     ("등급", .str (getGrade (max 10 (110 - 10 * 3)))),
                     ("사유", pyGet [("점수", PyVal.num 3)] "사유" (.str ""))])) ∧
    complianceValue 7 = 110 - 10 * 7 :=
  ⟨c2_compliance_mapping.1
      { initialState "doc" with
        risk_assessment := .dict [("데이터보안", .dict [("점수", .num 5)]),
                                  ("개인정보보호", .dict [("점수", .num 3)])] }
      "개인정보보호"
      [("데이터보안", .dict [("점수", .num 5)]), ("개인정보보호", .dict [("점수", .num 3)])]
      [("점수", .num 3)]
      [("데이터보안", catEntry [("점수", PyVal.num 5)] 5),
       ("개인정보보호", catEntry [("점수", PyVal.num 3)] 3)]
      (.num 3) 3 (0 + complianceValue 5 + complianceValue 3) 2 rfl
      (by decide)
      (List.mem_cons_of_mem _ (List.mem_cons_self _ _))
      (by decide) (by decide) rfl rfl (by rfl),
   c2_compliance_mapping.2.2.2.2.2.2 7 (by norm_num) (by norm_num)⟩

/-! ### C4 -/

/-- C4: whenever the scoring stage succeeds with at least one usable
category, it writes an `전체점수` (OverallScore) entry whose score is the
unweighted arithmetic mean of the per-category compliance scores rounded
to one decimal place, graded by the same thresholds (the grade and the
percentage are taken from the unrounded mean); with zero usable categories
the compliance dict is empty and has no `전체점수` entry. -/
theorem c4_overall_score :
    ∀ (st : AnalysisState) (riskKvs scores : List (String × PyVal)) (tot : ℚ) (cnt : ℕ),
      st.risk_assessment = .dict riskKvs →
      complianceLoop [] 0 0 riskKvs = .ok (scores, tot, cnt) →
      (0 < cnt →
        ∃ kvs, (_calculate_compliance_score st).compliance_score = .dict kvs ∧
          dictFind? kvs "전체점수" =
            some (.dict
              [("점수", .num (roundTo1 (entrySum scores / (scores.length : ℚ)))),
               ("등급", .str (getGrade (entrySum scores / (scores.length : ℚ)))),
               ("백분율", .str (toString (roundHalfEven (entrySum scores / (scores.length : ℚ))) ++ "%"))])) ∧
      (cnt = 0 →
        scores = [] ∧
        (_calculate_compliance_score st).compliance_score = .dict [] ∧
        dictFind? scores "전체점수" = Option.none) := by
  intro st riskKvs scores tot cnt hrisk hloop
  obtain ⟨news, hs, hcnt, htot⟩ := complianceLoop_spec riskKvs _ _ _ _ _ _ hloop
  have hsn : scores = news := by simpa using hs
  constructor
  · intro hpos
    refine ⟨dictSet scores "전체점수" (overallEntry (tot / (cnt : ℚ))), ?_, ?_⟩
    · simp only [_calculate_compliance_score, hrisk, hloop, if_pos hpos]
    · rw [dictFind?_dictSet_self]
      have hcnt' : (cnt : ℚ) = (scores.length : ℚ) := by
        rw [hsn]; exact_mod_cast by omega
      have htot' : tot = entrySum scores := by rw [hsn]; simpa using htot
      rw [overallEntry, htot', hcnt']
  · intro h0
    have hnews : news = [] := by
      have := hcnt; rw [h0] at this
      exact List.length_eq_zero.mp (by omega)
    have hse : scores = [] := by rw [hsn, hnews]
    refine ⟨hse, ?_, by rw [hse]; rfl⟩
    have : ¬ 0 < cnt := by omega
    simp only [_calculate_compliance_score, hrisk, hloop, if_neg this, hse]

/-- Witness for C4: two categories with scores 4 and 7 give compliance 70
and 40, and an 전체점수 entry of 55.0 with grade 부족; an empty risk dict
gives an empty compliance dict. -/
theorem c4_overall_score_witness :
    (∃ kvs,
      (_calculate_compliance_score
        { initialState "doc" with
          risk_assessment := .dict [("데이터보안", .dict [("점수", .num 4)]),
                                    ("접근제어", .dict [("점수", .num 7)])] }).compliance_score
        = .dict kvs ∧
      dictFind? kvs "전체점수" =
        some (.dict [("점수", .num (roundTo1 (110 / 2))),
                     ("등급", .str (getGrade (110 / 2))),
                     ("백분율", .str (toString (roundHalfEven (110 / 2)) ++ "%"))])) ∧
    (_calculate_compliance_score
      { initialState "doc" with risk_assessment := .dict [] }).compliance_score = .dict [] := by
  constructor
  · have h := (c4_overall_score
      { initialState "doc" with
        risk_assessment := .dict [("데이터보안", .dict [("점수", .num 4)]),
                                  ("접근제어", .dict [("점수", .num 7)])] }
      [("데이터보안", .dict [("점수", .num 4)]), ("접근제어", .dict [("점수", .num 7)])]
      [("데이터보안", catEntry [("점수", PyVal.num 4)] 4),
       ("접근제어", catEntry [("점수", PyVal.num 7)] 7)]
      (0 + complianceValue 4 + complianceValue 7) 2 rfl (by rfl)).1 (by norm_num)
    obtain ⟨kvs, hk, hfind⟩ := h
    refine ⟨kvs, hk, ?_⟩
    rw [hfind]
    norm_num [entrySum, entryScore_catEntry, complianceValue]
  · exact ((c4_overall_score
      { initialState "doc" with risk_assessment := .dict [] }
      [] [] 0 0 rfl rfl).2 rfl).2.1

/-! ### C10 -/

/-- An included risk category whose `점수` value Python arithmetic would
raise on: the category is not 전체위험도, its record is a dict with a
`점수` key, and the value is neither a number nor a bool. -/
def badScoreEntry (p : String × PyVal) : Prop :=
  p.1 ≠ "전체위험도" ∧
  ∃ fields v, p.2 = .dict fields ∧ dictFind? fields "점수" = some v ∧
    scoreAsNum v = Option.none

theorem complianceLoop_error_of_bad (l : List (String × PyVal)) :
    ∀ acc tot cnt, (∃ p ∈ l, badScoreEntry p) →
      ∃ e, complianceLoop acc tot cnt l = .error e := by
  induction l with
  | nil => intro acc tot cnt h; simp at h
  | cons hd tl ih =>
    intro acc tot cnt h
    obtain ⟨p, hp, hbad⟩ := h
    obtain ⟨c, d⟩ := hd
    rcases List.mem_cons.mp hp with rfl | hmem
    · obtain ⟨hc, fields, v, hdict, hf, hn⟩ := hbad
      simp only at hc hdict
      subst hdict
      exact ⟨"unsupported operand type(s)",
        by simp only [complianceLoop, if_neg hc, hf, hn]⟩
    · cases d with
      | dict fields =>
        by_cases hc : c = "전체위험도"
        · obtain ⟨e, he⟩ := ih acc tot cnt ⟨p, hmem, hbad⟩
          exact ⟨e, by simp only [complianceLoop, if_pos hc, he]⟩
        · cases hf : dictFind? fields "점수" with
          | none =>
            obtain ⟨e, he⟩ := ih acc tot cnt ⟨p, hmem, hbad⟩
            exact ⟨e, by simp only [complianceLoop, if_neg hc, hf, he]⟩
          | some v =>
            cases hn : scoreAsNum v with
            | none =>
              exact ⟨"unsupported operand type(s)",
                by simp only [complianceLoop, if_neg hc, hf, hn]⟩
            | some r =>
              obtain ⟨e, he⟩ := ih _ _ _ ⟨p, hmem, hbad⟩
              exact ⟨e, by rw [complianceLoop_cons_num acc tot cnt hc hf hn, he]⟩
      | num q =>
        obtain ⟨e, he⟩ := ih acc tot cnt ⟨p, hmem, hbad⟩
        exact ⟨e, by simp only [complianceLoop]; exact he⟩
      | str s =>
        obtain ⟨e, he⟩ := ih acc tot cnt ⟨p, hmem, hbad⟩
        exact ⟨e, by simp only [complianceLoop]; exact he⟩
      | bool b =>
        obtain ⟨e, he⟩ := ih acc tot cnt ⟨p, hmem, hbad⟩
        exact ⟨e, by simp only [complianceLoop]; exact he⟩
      | none =>
        obtain ⟨e, he⟩ := ih acc tot cnt ⟨p, hmem, hbad⟩
        exact ⟨e, by simp only [complianceLoop]; exact he⟩
      | list xs =>
        obtain ⟨e, he⟩ := ih acc tot cnt ⟨p, hmem, hbad⟩
        exact ⟨e, by simp only [complianceLoop]; exact he⟩

/-- C10: the scoring stage never type-checks a category's score — if any
included category (a dict with a `점수` key, other than 전체위험도) holds a
non-numeric score value, the arithmetic raises, the stage's handler fires,
and `compliance_score` becomes the single fixed error record, discarding
everything computed so far; in general `compliance_score` is atomically
either the fully computed dict or the error record, never partial. -/
theorem c10_nonnumeric_score_atomic :
    (∀ (st : AnalysisState) (riskKvs : List (String × PyVal)),
       st.risk_assessment = .dict riskKvs →
       (∃ p ∈ riskKvs, badScoreEntry p) →
       (_calculate_compliance_score st).compliance_score = .dict complianceErrorDict) ∧
    (∀ st : AnalysisState,
       (_calculate_compliance_score st).compliance_score = .dict complianceErrorDict ∨
       ∃ riskKvs scores tot cnt,
         st.risk_assessment = .dict riskKvs ∧
         complianceLoop [] 0 0 riskKvs = .ok (scores, tot, cnt) ∧
         (_calculate_compliance_score st).compliance_score =
           .dict (if 0 < cnt then dictSet scores "전체점수" (overallEntry (tot / (cnt : ℚ)))
                  else scores)) := by
  constructor
  · intro st riskKvs hrisk hbad
    obtain ⟨e, he⟩ := complianceLoop_error_of_bad riskKvs [] 0 0 hbad
    simp only [_calculate_compliance_score, hrisk, he]
  · intro st
    cases hrisk : st.risk_assessment with
    | dict riskKvs =>
      cases hloop : complianceLoop [] 0 0 riskKvs with
      | ok res =>
        obtain ⟨scores, tot, cnt⟩ := res
        right
        exact ⟨riskKvs, scores, tot, cnt, rfl, hloop, by
          simp only [_calculate_compliance_score, hrisk, hloop]⟩
      | error e => left; simp only [_calculate_compliance_score, hrisk, hloop]
    | num q => left; simp only [_calculate_compliance_score, hrisk]
    | str s => left; simp only [_calculate_compliance_score, hrisk]
    | bool b => left; simp only [_calculate_compliance_score, hrisk]
    | none => left; simp only [_calculate_compliance_score, hrisk]
    | list xs => left; simp only [_calculate_compliance_score, hrisk]

/-- Witness for C10: a risk dict whose 규제준수 record carries the string
score "높음" makes the stage produce exactly the error record, although
another category before it was perfectly usable. -/
theorem c10_nonnumeric_score_atomic_witness :
    (_calculate_compliance_score
      { initialState "doc" with
        risk_assessment := .dict [("개인정보보호", .dict [("점수", .num 2)]),
                                  ("규제준수", .dict [("점수", .str "높음")])] }).compliance_score
      = .dict complianceErrorDict :=
  c10_nonnumeric_score_atomic.1
    { initialState "doc" with
      risk_assessment := .dict [("개인정보보호", .dict [("점수", .num 2)]),
                                ("규제준수", .dict [("점수", .str "높음")])] }
    [("개인정보보호", .dict [("점수", .num 2)]), ("규제준수", .dict [("점수", .str "높음")])]
    rfl
    ⟨("규제준수", .dict [("점수", .str "높음")]), by simp,
     by decide, [("점수", .str "높음")], .str "높음", rfl, rfl, rfl⟩

/-! ### C7 -/

/-- C7: with no web-search credential configured, the web-search stage
writes the same fixed stub record on every invocation — the whole result
state is the input state with only `web_search_results` and the
skipped-step progress note changed, so the stub is independent of
`document_type` and every other field, and `error_message` is untouched. -/
theorem c7_web_stub (env : Env) (st : AnalysisState) (h : env.hasTavily = false) :
    (_search_web_info env st).web_search_results = webStub ∧
    (_search_web_info env st).error_message = st.error_message ∧
    (_search_web_info env st).current_step = "웹 검색 건너뜀" ∧
    _search_web_info env st =
      { st with web_search_results := webStub, current_step := "웹 검색 건너뜀" } := by
  refine ⟨?_, ?_, ?_, ?_⟩ <;> simp [_search_web_info, h]

/-- Witness for C7 at a concrete environment and state. -/
theorem c7_web_stub_witness :
    (_search_web_info
      { classifyCall := .thrown "x", primaryCall := .thrown "x", riskCall := .thrown "x",
        reportCall := .thrown "x", hasTavily := false, tavilyCall := .ok [], now := "지금" }
      { initialState "내용" with document_type := "보안정책" }).web_search_results = webStub :=
  (c7_web_stub
    { classifyCall := .thrown "x", primaryCall := .thrown "x", riskCall := .thrown "x",
      reportCall := .thrown "x", hasTavily := false, tavilyCall := .ok [], now := "지금" }
    { initialState "내용" with document_type := "보안정책" } rfl).1

/-! ### C5 -/

theorem isolatedDigitsAux_mem (l : List Char) :
    ∀ (prev : Option Char), ∀ c ∈ isolatedDigitsAux prev l,
      c = '1' ∨ c = '2' ∨ c = '3' := by
  induction l with
  | nil => intro prev c hc; simp [isolatedDigitsAux] at hc
  | cons d rest ih =>
    intro prev c hc
    simp only [isolatedDigitsAux] at hc
    split at hc
    · rename_i hcond
      rcases List.mem_cons.mp hc with rfl | hmem
      · simp only [Bool.and_eq_true, Bool.or_eq_true, decide_eq_true_eq] at hcond
        tauto
      · exact ih _ c hmem
    · exact ih _ c hc

/-- C5: the router returns the handler named by the last isolated digit
token in {1,2,3} of the language-model reply; with no such digit it falls
back to the fixed keyword check on the raw question — category-3 keywords
first (so a question containing a category-3 keyword and no digit in the
reply routes to multi_agent), then category-2, else category-1; and when
the language-model call throws, it returns qa_chatbot. -/
theorem c5_router :
    (∀ content question c,
       (isolatedDigits (pyStrip content).toList).getLast? = some c →
       route_question (.ok content) question =
         lookupD routeMap [c].asString "qa_chatbot" ∧
       ((c = '1' ∧ route_question (.ok content) question = "qa_chatbot") ∨
        (c = '2' ∧ route_question (.ok content) question = "document_analysis") ∨
        (c = '3' ∧ route_question (.ok content) question = "multi_agent"))) ∧
    (∀ content question,
       (isolatedDigits (pyStrip content).toList).getLast? = Option.none →
       containsAny (pyLower question) kw3 = true →
       route_question (.ok content) question = "multi_agent") ∧
    (∀ content question,
       (isolatedDigits (pyStrip content).toList).getLast? = Option.none →
       containsAny (pyLower question) kw3 = false →
       containsAny (pyLower question) kw2 = true →
       route_question (.ok content) question = "document_analysis") ∧
    (∀ content question,
       (isolatedDigits (pyStrip content).toList).getLast? = Option.none →
       containsAny (pyLower question) kw3 = false →
       containsAny (pyLower question) kw2 = false →
       route_question (.ok content) question = "qa_chatbot") ∧
    (∀ e question, route_question (.error e) question = "qa_chatbot") := by
  refine ⟨?_, ?_, ?_, ?_, ?_⟩
  · intro content question c h
    have hmem : c ∈ isolatedDigits (pyStrip content).toList := by
      have := List.getLast?_eq_getLast (l := isolatedDigits (pyStrip content).toList)
      rcases hl : isolatedDigits (pyStrip content).toList with _ | ⟨d, ds⟩
      · rw [hl] at h; simp at h
      · rw [hl] at h
        have : c = (d :: ds).getLast (by simp) := by
          have hg := List.getLast?_eq_getLast (d :: ds) (by simp)
          rw [hg] at h; exact (Option.some.injEq _ _).mp h.symm
        rw [this]; exact List.getLast_mem _
    constructor
    · simp only [route_question, h]
    · have h123 := isolatedDigitsAux_mem (pyStrip content).toList Option.none c hmem
      rcases h123 with rfl | rfl | rfl
      · left; exact ⟨rfl, by simp only [route_question, h]; rfl⟩
      · right; left; exact ⟨rfl, by simp only [route_question, h]; rfl⟩
      · right; right; exact ⟨rfl, by simp only [route_question, h]; rfl⟩
  · intro content question h hkw
    simp only [route_question, h, fallbackClassification, hkw, if_pos]
    rfl
  · intro content question h hkw3 hkw2
    simp only [route_question, h, fallbackClassification, hkw3, hkw2]
    rfl
  · intro content question h hkw3 hkw2
    simp only [route_question, h, fallbackClassification, hkw3, hkw2]
    rfl
  · intro e question; rfl

/-- Witness for C5: a reasoning reply ending in the digit 3 routes to
multi_agent; with a digit-free reply, a question holding the category-3
keyword 보안 routes to multi_agent, one holding only the category-2
keyword 요약 routes to document_analysis, one with no keyword routes to
qa_chatbot; a thrown call routes to qa_chatbot. -/
theorem c5_router_witness :
    route_question (.ok "분석 과정: 1. 키워드 2. 문맥 최종 판단: 3") "질문" = "multi_agent" ∧
    route_question (.ok "결론을 내릴 수 없습니다") "보안 점검을 부탁해" = "multi_agent" ∧
    route_question (.ok "결론을 내릴 수 없습니다") "요약 부탁해" = "document_analysis" ∧
    route_question (.ok "결론을 내릴 수 없습니다") "안녕하세요" = "qa_chatbot" ∧
    route_question (.error "APIError") "보안 점검" = "qa_chatbot" :=
  ⟨(((c5_router.1 "분석 과정: 1. 키워드 2. 문맥 최종 판단: 3" "질문" '3'
      (by decide)).2.resolve_left (by decide)).resolve_left (by decide)).2,
   c5_router.2.1 "결론을 내릴 수 없습니다" "보안 점검을 부탁해" (by decide) (by decide),
   c5_router.2.2.1 "결론을 내릴 수 없습니다" "요약 부탁해" (by decide) (by decide) (by decide),
   c5_router.2.2.2.1 "결론을 내릴 수 없습니다" "안녕하세요" (by decide) (by decide) (by decide),
   c5_router.2.2.2.2 "APIError" "보안 점검"⟩

/-! ### C8: frame discipline of the stages -/

theorem classify_frame (env : Env) (st : AnalysisState) :
    (_classify_document env st).input_content = st.input_content ∧
    (_classify_document env st).primary_analysis = st.primary_analysis ∧
    (_classify_document env st).risk_assessment = st.risk_assessment ∧
    (_classify_document env st).web_search_results = st.web_search_results ∧
    (_classify_document env st).compliance_score = st.compliance_score ∧
    (_classify_document env st).final_report = st.final_report := by
  cases h : env.classifyCall <;> simp [_classify_document, h]

theorem primary_frame (env : Env) (st : AnalysisState) :
    (_primary_analysis env st).input_content = st.input_content ∧
    (_primary_analysis env st).document_type = st.document_type ∧
    (_primary_analysis env st).risk_assessment = st.risk_assessment ∧
    (_primary_analysis env st).web_search_results = st.web_search_results ∧
    (_primary_analysis env st).compliance_score = st.compliance_score ∧
    (_primary_analysis env st).final_report = st.final_report := by
  cases h : env.primaryCall <;> simp [_primary_analysis, h]

theorem risk_frame (env : Env) (st : AnalysisState) :
    (_assess_risk env st).input_content = st.input_content ∧
    (_assess_risk env st).document_type = st.document_type ∧
    (_assess_risk env st).primary_analysis = st.primary_analysis ∧
    (_assess_risk env st).web_search_results = st.web_search_results ∧
    (_assess_risk env st).compliance_score = st.compliance_score ∧
    (_assess_risk env st).final_report = st.final_report := by
  cases h : env.riskCall <;> simp [_assess_risk, h]

theorem web_frame (env : Env) (st : AnalysisState) :
    (_search_web_info env st).input_content = st.input_content ∧
    (_search_web_info env st).document_type = st.document_type ∧
    (_search_web_info env st).primary_analysis = st.primary_analysis ∧
    (_search_web_info env st).risk_assessment = st.risk_assessment ∧
    (_search_web_info env st).compliance_score = st.compliance_score ∧
    (_search_web_info env st).final_report = st.final_report := by
  by_cases h : env.hasTavily
  · cases ht : env.tavilyCall <;> simp [_search_web_info, h, ht]
  · simp [_search_web_info, h]

theorem compliance_frame (st : AnalysisState) :
    (_calculate_compliance_score st).input_content = st.input_content ∧
    (_calculate_compliance_score st).document_type = st.document_type ∧
    (_calculate_compliance_score st).primary_analysis = st.primary_analysis ∧
    (_calculate_compliance_score st).risk_assessment = st.risk_assessment ∧
    (_calculate_compliance_score st).web_search_results = st.web_search_results ∧
    (_calculate_compliance_score st).final_report = st.final_report := by
  cases h : st.risk_assessment with
  | dict riskKvs =>
    cases hl : complianceLoop [] 0 0 riskKvs <;>
      simp [_calculate_compliance_score, h, hl]
  | num q => simp [_calculate_compliance_score, h]
  | str s => simp [_calculate_compliance_score, h]
  | bool b => simp [_calculate_compliance_score, h]
  | none => simp [_calculate_compliance_score, h]
  | list xs => simp [_calculate_compliance_score, h]

theorem report_frame (env : Env) (st : AnalysisState) :
    (_generate_final_report env st).input_content = st.input_content ∧
    (_generate_final_report env st).document_type = st.document_type ∧
    (_generate_final_report env st).primary_analysis = st.primary_analysis ∧
    (_generate_final_report env st).risk_assessment = st.risk_assessment ∧
    (_generate_final_report env st).web_search_results = st.web_search_results ∧
    (_generate_final_report env st).compliance_score = st.compliance_score := by
  cases h : env.reportCall <;> simp [_generate_final_report, h]

/-- C8: each substantive state field is written only by its designated
stage — every other stage passes it through unchanged, and
`input_content`, set once by the initial state, survives the whole run —
and no stage reads a field written by a later stage: each stage's output
field is a function of the collaborator environment and of the fields
written by strictly earlier stages only. -/
theorem c8_frame_discipline :
    (∀ env content, (analyze_document env content).input_content = content) ∧
    (∀ env st,
      (_classify_document env st).input_content = st.input_content ∧
      (_classify_document env st).primary_analysis = st.primary_analysis ∧
      (_classify_document env st).risk_assessment = st.risk_assessment ∧
      (_classify_document env st).web_search_results = st.web_search_results ∧
      (_classify_document env st).compliance_score = st.compliance_score ∧
      (_classify_document env st).final_report = st.final_report) ∧
    (∀ env st,
      (_primary_analysis env st).input_content = st.input_content ∧
      (_primary_analysis env st).document_type = st.document_type ∧
      (_primary_analysis env st).risk_assessment = st.risk_assessment ∧
      (_primary_analysis env st).web_search_results = st.web_search_results ∧
      (_primary_analysis env st).compliance_score = st.compliance_score ∧
      (_primary_analysis env st).final_report = st.final_report) ∧
    (∀ env st,
      (_assess_risk env st).input_content = st.input_content ∧
      (_assess_risk env st).document_type = st.document_type ∧
      (_assess_risk env st).primary_analysis = st.primary_analysis ∧
      (_assess_risk env st).web_search_results = st.web_search_results ∧
      (_assess_risk env st).compliance_score = st.compliance_score ∧
      (_assess_risk env st).final_report = st.final_report) ∧
    (∀ env st,
      (_search_web_info env st).input_content = st.input_content ∧
      (_search_web_info env st).document_type = st.document_type ∧
      (_search_web_info env st).primary_analysis = st.primary_analysis ∧
      (_search_web_info env st).risk_assessment = st.risk_assessment ∧
      (_search_web_info env st).compliance_score = st.compliance_score ∧
      (_search_web_info env st).final_report = st.final_report) ∧
    (∀ st,
      (_calculate_compliance_score st).input_content = st.input_content ∧
      (_calculate_compliance_score st).document_type = st.document_type ∧
      (_calculate_compliance_score st).primary_analysis = st.primary_analysis ∧
      (_calculate_compliance_score st).risk_assessment = st.risk_assessment ∧
      (_calculate_compliance_score st).web_search_results = st.web_search_results ∧
      (_calculate_compliance_score st).final_report = st.final_report) ∧
    (∀ env st,
      (_generate_final_report env st).input_content = st.input_content ∧
      (_generate_final_report env st).document_type = st.document_type ∧
      (_generate_final_report env st).primary_analysis = st.primary_analysis ∧
      (_generate_final_report env st).risk_assessment = st.risk_assessment ∧
      (_generate_final_report env st).web_search_results = st.web_search_results ∧
      (_generate_final_report env st).compliance_score = st.compliance_score) ∧
    (∀ env s t, (_classify_document env s).document_type =
                (_classify_document env t).document_type) ∧
    (∀ env s t, (_primary_analysis env s).primary_analysis =
                (_primary_analysis env t).primary_analysis) ∧
    (∀ env s t, (_assess_risk env s).risk_assessment =
                (_assess_risk env t).risk_assessment) ∧
    (∀ env s t, s.document_type = t.document_type →
       (_search_web_info env s).web_search_results =
       (_search_web_info env t).web_search_results) ∧
    (∀ s t, s.risk_assessment = t.risk_assessment →
       (_calculate_compliance_score s).compliance_score =
       (_calculate_compliance_score t).compliance_score) ∧
    (∀ env s t, s.compliance_score = t.compliance_score →
       (_generate_final_report env s).final_report =
       (_generate_final_report env t).final_report) := by
  refine ⟨?_, classify_frame, primary_frame, risk_frame, web_frame,
          compliance_frame, report_frame, ?_, ?_, ?_, ?_, ?_, ?_⟩
  · intro env content
    rw [analyze_document, (report_frame env _).1, (compliance_frame _).1,
        (web_frame env _).1, (risk_frame env _).1, (primary_frame env _).1,
        (classify_frame env _).1]
    rfl
  · intro env s t
    cases h : env.classifyCall <;> simp [_classify_document, h]
  · intro env s t
    cases h : env.primaryCall <;> simp [_primary_analysis, h]
  · intro env s t
    cases h : env.riskCall <;> simp [_assess_risk, h]
  · intro env s t hdoc
    by_cases h : env.hasTavily
    · cases ht : env.tavilyCall <;> simp [_search_web_info, h, ht, hdoc]
    · simp [_search_web_info, h]
  · intro s t hrisk
    cases h : s.risk_assessment with
    | dict riskKvs =>
      cases hl : complianceLoop [] 0 0 riskKvs <;>
        simp [_calculate_compliance_score, h, hrisk ▸ h, hl]
    | num q => simp [_calculate_compliance_score, h, hrisk ▸ h]
    | str s' => simp [_calculate_compliance_score, h, hrisk ▸ h]
    | bool b => simp [_calculate_compliance_score, h, hrisk ▸ h]
    | none => simp [_calculate_compliance_score, h, hrisk ▸ h]
    | list xs => simp [_calculate_compliance_score, h, hrisk ▸ h]
  · intro env s t hcomp
    cases h : env.reportCall <;> simp [_generate_final_report, h, hcomp]

/-- Witness for C8: the non-interference conjuncts applied at a concrete
environment to two states that agree on the read fields. -/
theorem c8_frame_discipline_witness :
    (_calculate_compliance_score
       { initialState "a" with risk_assessment := riskFallback }).compliance_score =
    (_calculate_compliance_score
       { initialState "b" with risk_assessment := riskFallback,
                               final_report := "다른 보고서" }).compliance_score ∧
    (analyze_document
      { classifyCall := .thrown "x", primaryCall := .thrown "x", riskCall := .thrown "x",
        reportCall := .thrown "x", hasTavily := false, tavilyCall := .ok [],
        now := "지금" } "문서 원문").input_content = "문서 원문" :=
  ⟨c8_frame_discipline.2.2.2.2.2.2.2.2.2.2.2.1
      { initialState "a" with risk_assessment := riskFallback }
      { initialState "b" with risk_assessment := riskFallback,
                              final_report := "다른 보고서" } rfl,
   c8_frame_discipline.1
      { classifyCall := .thrown "x", primaryCall := .thrown "x", riskCall := .thrown "x",
        reportCall := .thrown "x", hasTavily := false, tavilyCall := .ok [],
        now := "지금" } "문서 원문"⟩

/-! ### C1 -/

/-- An environment in which the language-model collaborator throws on
every call. -/
def allThrownEnv : Env :=
  { classifyCall := .thrown "API connection error",
    primaryCall := .thrown "API connection error",
    riskCall := .thrown "API connection error",
    reportCall := .thrown "API connection error",
    hasTavily := false, tavilyCall := .error "disabled", now := "2025년 10월 12일" }

/-- C1 counterexample: when the language-model collaborator throws on
every call, the returned state does NOT hold score-5 risk categories with
60-point compliance scores — `risk_assessment` is the fixed error record
`{"오류": "평가 실패"}` (no category carries any score) and
`compliance_score` is the empty dict (no category score 60, no overall
score).  The score-5/60-point outcome belongs to the unparseable-reply
path, not the throwing path. -/
theorem c1_cex :
    (analyze_document allThrownEnv "사내 개인정보 처리 지침").risk_assessment =
      .dict [("오류", .str "평가 실패")] ∧
    (analyze_document allThrownEnv "사내 개인정보 처리 지침").compliance_score =
      .dict [] ∧
    dictFind? [("오류", PyVal.str "평가 실패")] "개인정보보호" = Option.none :=
  ⟨rfl, rfl, rfl⟩

/-- C1 (amended): if the language-model collaborator throws on every call,
`analyze_document` still returns a complete state and no exception escapes
(the driver is a total function); `document_type` is 기타 (Other),
`primary_analysis` and `risk_assessment` are the fixed per-stage error
records, `compliance_score` is the empty dict — not per-category 60s —
and `final_report` is the non-empty literal error notice embedding the
exception text, with `error_message` holding the report stage's error. -/
theorem c1_total_failure_amended (e1 e2 e3 e4 : String) (hasT : Bool)
    (tav : Except String (List (String × String × String))) (now content : String) :
    (analyze_document
        ⟨.thrown e1, .thrown e2, .thrown e3, .thrown e4, hasT, tav, now⟩
        content).input_content = content ∧
    (analyze_document
        ⟨.thrown e1, .thrown e2, .thrown e3, .thrown e4, hasT, tav, now⟩
        content).document_type = "기타" ∧
    (analyze_document
        ⟨.thrown e1, .thrown e2, .thrown e3, .thrown e4, hasT, tav, now⟩
        content).primary_analysis = .dict [("오류", .str "분석 실패")] ∧
    (analyze_document
        ⟨.thrown e1, .thrown e2, .thrown e3, .thrown e4, hasT, tav, now⟩
        content).risk_assessment = .dict [("오류", .str "평가 실패")] ∧
    (analyze_document
        ⟨.thrown e1, .thrown e2, .thrown e3, .thrown e4, hasT, tav, now⟩
        content).compliance_score = .dict [] ∧
    (analyze_document
        ⟨.thrown e1, .thrown e2, .thrown e3, .thrown e4, hasT, tav, now⟩
        content).final_report =
      "## ⚠️ 보고서 생성 오류\n\n보고서 생성 중 오류가 발생했습니다: "
        ++ e4 ++ "\n\n기본 분석 결과를 확인해주세요." ∧
    (analyze_document
        ⟨.thrown e1, .thrown e2, .thrown e3, .thrown e4, hasT, tav, now⟩
        content).final_report ≠ "" ∧
    "보고서 생성 오류".toList <:+:
      (analyze_document
        ⟨.thrown e1, .thrown e2, .thrown e3, .thrown e4, hasT, tav, now⟩
        content).final_report.toList ∧
    (analyze_document
        ⟨.thrown e1, .thrown e2, .thrown e3, .thrown e4, hasT, tav, now⟩
        content).error_message = "보고서 생성 오류: " ++ e4 := by
  have hrep : (analyze_document
      ⟨.thrown e1, .thrown e2, .thrown e3, .thrown e4, hasT, tav, now⟩
      content).final_report =
      "## ⚠️ 보고서 생성 오류\n\n보고서 생성 중 오류가 발생했습니다: "
        ++ e4 ++ "\n\n기본 분석 결과를 확인해주세요." := by
    cases hasT <;> cases tav <;>
      simp [analyze_document, _classify_document, _primary_analysis, _assess_risk,
            _search_web_info, _calculate_compliance_score, _generate_final_report,
            complianceLoop]
  refine ⟨?_, ?_, ?_, ?_, ?_, hrep, ?_, ?_, ?_⟩
  · cases hasT <;> cases tav <;>
      simp [analyze_document, _classify_document, _primary_analysis, _assess_risk,
            _search_web_info, _calculate_compliance_score, _generate_final_report,
            complianceLoop, initialState]
  · cases hasT <;> cases tav <;>
      simp [analyze_document, _classify_document, _primary_analysis, _assess_risk,
            _search_web_info, _calculate_compliance_score, _generate_final_report,
            complianceLoop]
  · cases hasT <;> cases tav <;>
      simp [analyze_document, _classify_document, _primary_analysis, _assess_risk,
            _search_web_info, _calculate_compliance_score, _generate_final_report,
            complianceLoop]
  · cases hasT <;> cases tav <;>
      simp [analyze_document, _classify_document, _primary_analysis, _assess_risk,
            _search_web_info, _calculate_compliance_score, _generate_final_report,
            complianceLoop]
  · cases hasT <;> cases tav <;>
      simp [analyze_document, _classify_document, _primary_analysis, _assess_risk,
            _search_web_info, _calculate_compliance_score, _generate_final_report,
            complianceLoop]
  · rw [hrep]
    intro h
    have hlen := congrArg String.length h
    rw [String.length_append, String.length_append] at hlen
    have hA : 0 < ("## ⚠️ 보고서 생성 오류\n\n보고서 생성 중 오류가 발생했습니다: " : String).length := by
      decide
    have h0 : ("" : String).length = 0 := rfl
    omega
  · rw [hrep]
    refine ⟨"## ⚠️ ".toList,
            "\n\n보고서 생성 중 오류가 발생했습니다: ".toList ++ e4.toList
              ++ "\n\n기본 분석 결과를 확인해주세요.".toList, ?_⟩
    simp [String.toList, String.data_append]
  · cases hasT <;> cases tav <;>
      simp [analyze_document, _classify_document, _primary_analysis, _assess_risk,
            _search_web_info, _calculate_compliance_score, _generate_final_report,
            complianceLoop]

/-! ### C6 -/

/-- An environment whose primary-analysis reply is not valid JSON while the
call itself succeeds. -/
def parseFailEnv : Env :=
  { classifyCall := .reply "분류번호: 1" Option.none,
    primaryCall := .reply "이것은 JSON이 아닙니다" Option.none,
    riskCall := .reply "\x7b\x7d" (some (.dict [])),
    reportCall := .reply "보고서 본문" Option.none,
    hasTavily := false, tavilyCall := .ok [], now := "2025년 10월 12일" }

/-- C6 counterexample: a collaborator failure that is a reply failing
structured parsing (the primary-analysis reply is not valid JSON) is
caught and replaced by the degraded default, but is NOT recorded in
`error_message` — the stage leaves `error_message` untouched (here empty),
so not every collaborator failure is recorded there. -/
theorem c6_cex :
    (_primary_analysis parseFailEnv (initialState "문서 본문")).primary_analysis =
      primaryFallback "이것은 JSON이 아닙니다" ∧
    (_primary_analysis parseFailEnv (initialState "문서 본문")).error_message = "" ∧
    (initialState "문서 본문").error_message = "" :=
  ⟨rfl, rfl, rfl⟩

/-- C6 (amended): collaborator calls that THROW are caught inside the
stage, replaced by a degraded-but-valid update, and recorded in
`error_message`, which each stage overwrites (so after a full run only the
most recent error is retained — in particular a report-stage error
replaces whatever any earlier stage recorded); but a reply that fails
structured parsing is caught and replaced by the degraded default WITHOUT
touching `error_message`. -/
theorem c6_amended :
    (∀ env st content, env.primaryCall = .reply content Option.none →
       (_primary_analysis env st).error_message = st.error_message ∧
       (_primary_analysis env st).primary_analysis = primaryFallback content) ∧
    (∀ env st content, env.riskCall = .reply content Option.none →
       (_assess_risk env st).error_message = st.error_message ∧
       (_assess_risk env st).risk_assessment = riskFallback) ∧
    (∀ env st e, env.primaryCall = .thrown e →
       (_primary_analysis env st).error_message = "1차 분석 오류: " ++ e ∧
       (_primary_analysis env st).primary_analysis = .dict [("오류", .str "분석 실패")]) ∧
    (∀ env st e, env.riskCall = .thrown e →
       (_assess_risk env st).error_message = "위험도 평가 오류: " ++ e ∧
       (_assess_risk env st).risk_assessment = .dict [("오류", .str "평가 실패")]) ∧
    (∀ env st e, env.hasTavily = true → env.tavilyCall = .error e →
       (_search_web_info env st).error_message = "웹 검색 오류: " ++ e) ∧
    (∀ env content e, env.reportCall = .thrown e →
       (analyze_document env content).error_message = "보고서 생성 오류: " ++ e) := by
  refine ⟨?_, ?_, ?_, ?_, ?_, ?_⟩
  · intro env st content h; simp [_primary_analysis, h]
  · intro env st content h; simp [_assess_risk, h]
  · intro env st e h; simp [_primary_analysis, h]
  · intro env st e h; simp [_assess_risk, h]
  · intro env st e ht h; simp [_search_web_info, ht, h]
  · intro env content e h
    simp [analyze_document, _generate_final_report, h]

/-- Witness for C6 (amended) at concrete inputs: the parse-failure clause
at `parseFailEnv`, and the overwrite clause — a risk-stage error is
replaced by the report-stage error after the full run. -/
theorem c6_amended_witness :
    (_assess_risk
       { parseFailEnv with riskCall := .reply "JSON 아님" Option.none }
       { initialState "문서" with error_message := "이전 오류" }).error_message
      = "이전 오류" ∧
    (analyze_document
       { parseFailEnv with riskCall := .thrown "위험 평가 실패 원인",
                           reportCall := .thrown "보고서 실패 원인" }
       "문서").error_message = "보고서 생성 오류: " ++ "보고서 실패 원인" :=
  ⟨(c6_amended.2.1
      { parseFailEnv with riskCall := .reply "JSON 아님" Option.none }
      { initialState "문서" with error_message := "이전 오류" }
      "JSON 아님" rfl).1,
   c6_amended.2.2.2.2.2
      { parseFailEnv with riskCall := .thrown "위험 평가 실패 원인",
                          reportCall := .thrown "보고서 실패 원인" }
      "문서" "보고서 실패 원인" rfl⟩

/-! ### C9: idempotence of the report placeholder substitution

The argument: after one substitution pass no occurrence of any token is
left (the literal tokens were consumed and the substituted values can take
part in no new occurrence), so a second pass replaces nothing. -/

theorem prefix_append_cases {α : Type} {t x y : List α} (h : t <+: x ++ y) :
    t <+: x ∨ ∃ r, t = x ++ r ∧ r <+: y := by
  induction x generalizing t with
  | nil => exact Or.inr ⟨t, by simp, by simpa using h⟩
  | cons c x' ih =>
    cases t with
    | nil => exact Or.inl (by simp)
    | cons d t' =>
      rw [List.cons_append] at h
      obtain ⟨hd, h'⟩ := List.cons_prefix_cons.mp h
      subst hd
      rcases ih h' with h1 | ⟨r, rfl, h2⟩
      · exact Or.inl (List.cons_prefix_cons.mpr ⟨rfl, h1⟩)
      · exact Or.inr ⟨r, rfl, h2⟩

theorem infix_append_cases {α : Type} {t x y : List α} (h : t <:+: x ++ y) :
    t <:+: x ∨ t <:+: y ∨
    ∃ t₁ t₂, t = t₁ ++ t₂ ∧ t₁ ≠ [] ∧ t₂ ≠ [] ∧ t₁ <:+ x ∧ t₂ <+: y := by
  induction x generalizing t with
  | nil => exact Or.inr (Or.inl (by simpa using h))
  | cons c x' ih =>
    rw [List.cons_append] at h
    rcases List.infix_cons_iff.mp h with hp | hi
    · cases t with
      | nil => exact Or.inl (by simp)
      | cons d t' =>
        obtain ⟨hd, h'⟩ := List.cons_prefix_cons.mp hp
        subst hd
        rcases prefix_append_cases h' with h1 | ⟨r, hr', h2⟩
        · exact Or.inl (List.cons_prefix_cons.mpr ⟨rfl, h1⟩).isInfix
        · cases hr : r with
          | nil =>
            subst hr; subst hr'
            exact Or.inl (by simp)
          | cons r0 rs =>
            subst hr; subst hr'
            refine Or.inr (Or.inr ⟨d :: x', r0 :: rs, by simp, by simp, by simp,
              List.suffix_rfl, h2⟩)
    · rcases ih hi with h1 | h2 | ⟨t₁, t₂, rfl, hn1, hn2, hs, hp2⟩
      · exact Or.inl (List.infix_cons h1)
      · exact Or.inr (Or.inl h2)
      · exact Or.inr (Or.inr ⟨t₁, t₂, rfl, hn1, hn2,
          hs.trans (List.suffix_cons c x'), hp2⟩)

/-- The replacement value `b` cannot take part in any occurrence of the
token `t`: `b` is non-empty, `t` does not occur inside `b` and `b` does
not occur inside `t`, no proper non-empty suffix of `t` is a prefix of
`b`, and no proper non-empty prefix of `t` is a suffix of `b`.  This is
decidable, so a concrete timestamp/score/grade can be checked by
`decide`. -/
def SafeRepl (t b : List Char) : Prop :=
  b ≠ [] ∧ ¬ t <:+: b ∧ ¬ b <:+: t ∧
  ∀ i : Fin t.length, 0 < i.val →
    ¬ (t.drop i.val <+: b) ∧ ¬ (t.take i.val <:+ b)

theorem SafeRepl.join {t b : List Char} (h : SafeRepl t b) :
    ∀ t₁ t₂, t = t₁ ++ t₂ → t₁ ≠ [] → t₂ ≠ [] → ¬ t₂ <+: b ∧ ¬ t₁ <:+ b := by
  intro t₁ t₂ ht hn1 hn2
  have hlen : t₁.length < t.length := by
    rw [ht, List.length_append]
    have : 0 < t₂.length := List.length_pos.mpr hn2
    omega
  have hpos : 0 < t₁.length := List.length_pos.mpr hn1
  have hdrop : t.drop t₁.length = t₂ := by rw [ht, List.drop_left]
  have htake : t.take t₁.length = t₁ := by rw [ht, List.take_left]
  have := h.2.2.2 ⟨t₁.length, hlen⟩ hpos
  rw [hdrop, htake] at this
  exact this

theorem intercalate_cons_cons (b p q : List Char) (ps : List (List Char)) :
    List.intercalate b (p :: q :: ps) = p ++ b ++ List.intercalate b (q :: ps) := by
  simp [List.intercalate, List.intersperse_cons₂, List.flatten_cons,
        List.append_assoc]

theorem intercalate_single (b p : List Char) :
    List.intercalate b [p] = p := by
  simp [List.intercalate, List.intersperse_single, List.flatten_cons,
        List.flatten_nil]

theorem not_infix_intercalate {t b : List Char} (ht : t ≠ [])
    (hb : SafeRepl t b) :
    ∀ parts : List (List Char), (∀ p ∈ parts, ¬ t <:+: p) →
      ¬ t <:+: List.intercalate b parts := by
  intro parts
  induction parts with
  | nil =>
    intro _ h
    rw [List.intercalate, List.intersperse_nil, List.flatten_nil] at h
    exact ht (List.infix_nil.mp h)
  | cons p ps ih =>
    intro hp
    cases ps with
    | nil =>
      intro h
      rw [intercalate_single] at h
      exact hp p (by simp) h
    | cons q ps' =>
      intro h
      rw [intercalate_cons_cons, List.append_assoc] at h
      have hI : ¬ t <:+: List.intercalate b (q :: ps') :=
        ih (fun x hx => hp x (List.mem_cons_of_mem p hx))
      rcases infix_append_cases h with h1 | h2 | ⟨t₁, t₂, ht12, hn1, hn2, hs, hpre⟩
      · exact hp p (by simp) h1
      · rcases infix_append_cases h2 with h3 | h4 | ⟨t₁, t₂, ht12, hn1, hn2, hs, hpre⟩
        · exact hb.2.1 h3
        · exact hI h4
        · exact (hb.join t₁ t₂ ht12 hn1 hn2).2 hs
      · rcases prefix_append_cases hpre with h5 | ⟨r, hr, h6⟩
        · exact (hb.join t₁ t₂ ht12 hn1 hn2).1 h5
        · refine hb.2.2.1 ?_
          have h7 : b <+: t₂ := by rw [hr]; exact List.prefix_append b r
          have h8 : t₂ <:+ t := ⟨t₁, ht12.symm⟩
          exact h7.isInfix.trans h8.isInfix

theorem splitOnTok_ne_nil (a s : List Char) : splitOnTok a s ≠ [] := by
  induction s using splitOnTok.induct a with
  | case1 => rw [splitOnTok]; simp
  | case2 c rest hcond ih => rw [splitOnTok]; split <;> simp
  | case3 c rest hcond ih => rw [splitOnTok]; split <;> simp

theorem splitOnTok_headD_prefixOf (a s : List Char) :
    (splitOnTok a s).headD [] <+: s := by
  induction s using splitOnTok.induct a with
  | case1 => rw [splitOnTok]; simp
  | case2 c rest hcond ih =>
    rw [splitOnTok]; simp only [if_pos hcond, List.headD_cons]
    exact List.nil_prefix
  | case3 c rest hcond ih =>
    rw [splitOnTok]; simp only [if_neg hcond, List.headD_cons]
    exact List.cons_prefix_cons.mpr ⟨rfl, ih⟩

theorem splitOnTok_parts_occ (a s : List Char) :
    ∀ p ∈ splitOnTok a s, p <:+: s := by
  induction s using splitOnTok.induct a with
  | case1 =>
    intro p hp
    rw [splitOnTok] at hp
    simp only [List.mem_singleton] at hp
    simp [hp]
  | case2 c rest hcond ih =>
    intro p hp
    rw [splitOnTok] at hp
    simp only [if_pos hcond, List.mem_cons] at hp
    rcases hp with rfl | hp
    · exact List.nil_infix
    · exact (ih p hp).trans (List.drop_suffix _ _).isInfix
  | case3 c rest hcond ih =>
    intro p hp
    rw [splitOnTok] at hp
    simp only [if_neg hcond, List.mem_cons] at hp
    rcases hp with rfl | hp
    · exact (List.cons_prefix_cons.mpr ⟨rfl, splitOnTok_headD_prefixOf a rest⟩).isInfix
    · exact List.infix_cons (ih p (List.mem_of_mem_tail hp))

theorem splitOnTok_parts_no_tok (a s : List Char) (ha : a ≠ []) :
    ∀ p ∈ splitOnTok a s, ¬ a <:+: p := by
  induction s using splitOnTok.induct a with
  | case1 =>
    intro p hp
    rw [splitOnTok] at hp
    simp only [List.mem_singleton] at hp
    subst hp
    exact fun hc => ha (List.infix_nil.mp hc)
  | case2 c rest hcond ih =>
    intro p hp
    rw [splitOnTok] at hp
    simp only [if_pos hcond, List.mem_cons] at hp
    rcases hp with rfl | hp
    · exact fun hc => ha (List.infix_nil.mp hc)
    · exact ih p hp
  | case3 c rest hcond ih =>
    intro p hp
    rw [splitOnTok] at hp
    simp only [if_neg hcond, List.mem_cons] at hp
    rcases hp with rfl | hp
    · intro hc
      rcases List.infix_cons_iff.mp hc with hpre | hin
      · have : a <+: c :: rest :=
          hpre.trans (List.cons_prefix_cons.mpr ⟨rfl, splitOnTok_headD_prefixOf a rest⟩)
        exact hcond ⟨ha, List.isPrefixOf_iff_prefix.mpr this⟩
      · rcases hps : splitOnTok a rest with _ | ⟨p₀, ps⟩
        · exact splitOnTok_ne_nil a rest hps
        · have : (splitOnTok a rest).headD [] ∈ splitOnTok a rest := by
            rw [hps]; simp
          exact ih _ this hin
    · exact ih p (List.mem_of_mem_tail hp)

/-- The central lemma: after `replaceTok a b s`, the token `t` does not
occur, provided `b` is occurrence-safe for `t` and either `t` is the very
pattern that was replaced or `t` did not occur in `s` to begin with. -/
theorem not_infix_replaceTok {t a b : List Char} (ht : t ≠ []) (ha : a ≠ [])
    (hb : SafeRepl t b) (s : List Char) (hts : t = a ∨ ¬ t <:+: s) :
    ¬ t <:+: replaceTok a b s := by
  rw [replaceTok]
  refine not_infix_intercalate ht hb (splitOnTok a s) ?_
  intro p hp
  rcases hts with rfl | hno
  · exact splitOnTok_parts_no_tok t s ha p hp
  · exact fun hc => hno (hc.trans (splitOnTok_parts_occ a s p hp))

theorem splitOnTok_eq_single {a s : List Char} (h : ¬ a <:+: s) :
    splitOnTok a s = [s] := by
  induction s using splitOnTok.induct a with
  | case1 => rw [splitOnTok]
  | case2 c rest hcond ih =>
    exact absurd ((hcond.2 : a.isPrefixOf (c :: rest) = true) |> List.isPrefixOf_iff_prefix.mp).isInfix
      (by simpa using h)
  | case3 c rest hcond ih =>
    rw [splitOnTok]
    simp only [if_neg hcond]
    rw [ih (fun hc => h (List.infix_cons hc))]
    simp

/-- A replacement whose pattern does not occur is the identity. -/
theorem replaceTok_id_of_no_occ {a b s : List Char} (h : ¬ a <:+: s) :
    replaceTok a b s = s := by
  rw [replaceTok, splitOnTok_eq_single h, intercalate_single]

/-- The value-safety conditions of the idempotence argument: the timestamp,
the score string, the grade string, and the combined score/grade value can
take part in no occurrence of the tokens still being replaced after them.
All hold for the values the report stage actually substitutes (timestamps
delimited by digits, numeric score strings, the five grade words). -/
def SafeVals (now scoreStr gradeStr : String) : Prop :=
  SafeRepl tokTime now.toList ∧
  SafeRepl tokTime (scoreStr ++ "/100점 (" ++ gradeStr ++ ")").toList ∧
  SafeRepl tokScoreGrade (scoreStr ++ "/100점 (" ++ gradeStr ++ ")").toList ∧
  SafeRepl tokTime scoreStr.toList ∧
  SafeRepl tokScore scoreStr.toList ∧
  SafeRepl tokTime gradeStr.toList ∧
  SafeRepl tokScore gradeStr.toList ∧
  SafeRepl tokGrade gradeStr.toList

instance (t b : List Char) : Decidable (SafeRepl t b) := by
  unfold SafeRepl; infer_instance

instance (now scoreStr gradeStr : String) :
    Decidable (SafeVals now scoreStr gradeStr) := by
  unfold SafeVals; infer_instance

/-- C9: the placeholder substitution of the report stage is idempotent —
for every report string, applying the substitution again (even with a new
wall-clock timestamp) to the already-substituted result changes nothing,
because the first pass consumes every literal token and the substituted
values cannot take part in any new token occurrence. -/
theorem c9_subst_idempotent (now now2 scoreStr gradeStr : String) (hov : Bool)
    (h : SafeVals now scoreStr gradeStr) (r : List Char) :
    substPlaceholders now2 scoreStr gradeStr hov
      (substPlaceholders now scoreStr gradeStr hov r) =
    substPlaceholders now scoreStr gradeStr hov r := by
  obtain ⟨h1, h2, h3, h4, h5, h6, h7, h8⟩ := h
  have httime : tokTime ≠ [] := by decide
  have htsg : tokScoreGrade ≠ [] := by decide
  have hts : tokScore ≠ [] := by decide
  have htg : tokGrade ≠ [] := by decide
  have hmono : tokScore <:+: tokScoreGrade := by decide
  cases hov with
  | false =>
    show replaceTok tokTime now2.toList (replaceTok tokTime now.toList r) =
      replaceTok tokTime now.toList r
    exact replaceTok_id_of_no_occ
      (not_infix_replaceTok httime httime h1 r (Or.inl rfl))
  | true =>
    show replaceTok tokGrade gradeStr.toList
        (replaceTok tokScore scoreStr.toList
          (replaceTok tokScoreGrade (scoreStr ++ "/100점 (" ++ gradeStr ++ ")").toList
            (replaceTok tokTime now2.toList
              (replaceTok tokGrade gradeStr.toList
                (replaceTok tokScore scoreStr.toList
                  (replaceTok tokScoreGrade
                    (scoreStr ++ "/100점 (" ++ gradeStr ++ ")").toList
                    (replaceTok tokTime now.toList r))))))) =
      replaceTok tokGrade gradeStr.toList
        (replaceTok tokScore scoreStr.toList
          (replaceTok tokScoreGrade (scoreStr ++ "/100점 (" ++ gradeStr ++ ")").toList
            (replaceTok tokTime now.toList r)))
    have hA1 : ¬ tokTime <:+: replaceTok tokTime now.toList r :=
      not_infix_replaceTok httime httime h1 r (Or.inl rfl)
    have hA2 : ¬ tokTime <:+:
        replaceTok tokScoreGrade (scoreStr ++ "/100점 (" ++ gradeStr ++ ")").toList
          (replaceTok tokTime now.toList r) :=
      not_infix_replaceTok httime htsg h2 _ (Or.inr hA1)
    have hB2 : ¬ tokScoreGrade <:+:
        replaceTok tokScoreGrade (scoreStr ++ "/100점 (" ++ gradeStr ++ ")").toList
          (replaceTok tokTime now.toList r) :=
      not_infix_replaceTok htsg htsg h3 _ (Or.inl rfl)
    have hA3 : ¬ tokTime <:+:
        replaceTok tokScore scoreStr.toList
          (replaceTok tokScoreGrade (scoreStr ++ "/100점 (" ++ gradeStr ++ ")").toList
            (replaceTok tokTime now.toList r)) :=
      not_infix_replaceTok httime hts h4 _ (Or.inr hA2)
    have hC3 : ¬ tokScore <:+:
        replaceTok tokScore scoreStr.toList
          (replaceTok tokScoreGrade (scoreStr ++ "/100점 (" ++ gradeStr ++ ")").toList
            (replaceTok tokTime now.toList r)) :=
      not_infix_replaceTok hts hts h5 _ (Or.inl rfl)
    have hA4 : ¬ tokTime <:+:
        replaceTok tokGrade gradeStr.toList
          (replaceTok tokScore scoreStr.toList
            (replaceTok tokScoreGrade (scoreStr ++ "/100점 (" ++ gradeStr ++ ")").toList
              (replaceTok tokTime now.toList r))) :=
      not_infix_replaceTok httime htg h6 _ (Or.inr hA3)
    have hC4 : ¬ tokScore <:+:
        replaceTok tokGrade gradeStr.toList
          (replaceTok tokScore scoreStr.toList
            (replaceTok tokScoreGrade (scoreStr ++ "/100점 (" ++ gradeStr ++ ")").toList
              (replaceTok tokTime now.toList r))) :=
      not_infix_replaceTok hts htg h7 _ (Or.inr hC3)
    have hD4 : ¬ tokGrade <:+:
        replaceTok tokGrade gradeStr.toList
          (replaceTok tokScore scoreStr.toList
            (replaceTok tokScoreGrade (scoreStr ++ "/100점 (" ++ gradeStr ++ ")").toList
              (replaceTok tokTime now.toList r))) :=
      not_infix_replaceTok htg htg h8 _ (Or.inl rfl)
    have hB4 : ¬ tokScoreGrade <:+:
        replaceTok tokGrade gradeStr.toList
          (replaceTok tokScore scoreStr.toList
            (replaceTok tokScoreGrade (scoreStr ++ "/100점 (" ++ gradeStr ++ ")").toList
              (replaceTok tokTime now.toList r))) :=
      fun hc => hC4 (hmono.trans hc)
    rw [replaceTok_id_of_no_occ hA4, replaceTok_id_of_no_occ hB4,
        replaceTok_id_of_no_occ hC4, replaceTok_id_of_no_occ hD4]

/-- Witness for C9: the actual substitution values (a timestamp, score 60,
grade 미흡) satisfy the safety conditions, and re-substituting a concrete
already-substituted report with a later timestamp changes nothing. -/
theorem c9_subst_idempotent_witness :
    SafeVals "2025년 10월 12일 14:30:05" "60" "미흡" ∧
    substPlaceholders "2025년 10월 13일 09:00:00" "60" "미흡" true
      (substPlaceholders "2025년 10월 12일 14:30:05" "60" "미흡" true
        "전체 준수 점수: [점수]/100점 ([등급]) 분석일시: [현재 시간] 점수 [점수]".toList) =
      substPlaceholders "2025년 10월 12일 14:30:05" "60" "미흡" true
        "전체 준수 점수: [점수]/100점 ([등급]) 분석일시: [현재 시간] 점수 [점수]".toList :=
  ⟨by decide,
   c9_subst_idempotent "2025년 10월 12일 14:30:05" "2025년 10월 13일 09:00:00"
     "60" "미흡" true (by decide) _⟩

end MultiAgent
